import Mathlib

/-!
Shallow embedding of the signal-to-order execution pipeline of the OKX
trading bot (src/index.js, the program copy at lines 793-1950: classes
TradeDatabase, OKXClient, TradingViewParser, SignalManager).

Modelling conventions:
* JS numbers are modelled as `ℚ` (the claims are about which value flows
  where, not about IEEE-754 rounding); `toString`/`parseFloat` round-trips
  on stored numbers are the identity in the model.
* The Redis client is modelled as two key-addressed partial maps (string
  values and hashes) plus per-key failure flags: a flag set means any
  client call on that key throws, which the TradeDatabase methods catch
  exactly as the source does.
* Network effects (HMAC primitive, clock, exchange responses) are
  parameters of the functions that consume them.
-/

namespace OKX

/-- Configuration constants from `config` (src/index.js lines 802-836). -/
structure Config where
  BUY_AMOUNT_USDT : ℚ
  STOP_LOSS_PERCENTAGE : ℚ
  TAKE_PROFIT_PERCENTAGE : ℚ
  COOLDOWN_SECONDS : ℤ
  MAX_DAILY_TRADES : ℕ

/-- The configured values in the source. -/
def defaultConfig : Config :=
  { BUY_AMOUNT_USDT := 1000
    STOP_LOSS_PERCENTAGE := 2
    TAKE_PROFIT_PERCENTAGE := 5
    COOLDOWN_SECONDS := 60
    MAX_DAILY_TRADES := 5000 }

/-- The hash stored by `storeBuyOrder` / read back by `getBuyPosition`
(numeric fields are written with `toString` and read with `parseFloat`,
a lossless round-trip modelled as identity). -/
structure PositionRecord where
  quantity : ℚ
  price : ℚ
  usdtSpent : ℚ
  orderId : String
  timestamp : String
  status : String
  coin : String
  category : String
  subcategory : String
  deriving DecidableEq, Repr

/-- Model of the Redis store behind `TradeDatabase`: `pos` holds the hash
at keys `buy:<ref>`, `bal` the string value at keys `balance:<ref>`;
`failPos k` (resp. `failBal k`) means a hash (resp. string) operation on
key `k` throws, which the catch-blocks of the methods swallow. -/
structure Db where
  pos : String → Option PositionRecord
  bal : String → Option ℚ
  failPos : String → Bool
  failBal : String → Bool

/-- Method `getStrategyKey` (line 893): the composite strategy reference. -/
def getStrategyKey (coin category subcategory : String) : String :=
  coin ++ ":" ++ category ++ ":" ++ subcategory

/-- Redis key of the position hash for a strategy reference. -/
def buyKey (strategyRef : String) : String := "buy:" ++ strategyRef

/-- Redis key of the trading-balance value for a strategy reference. -/
def balanceKey (strategyRef : String) : String := "balance:" ++ strategyRef

/-- Method `storeBuyOrder` (lines 897-921): writes the position hash with
`status = 'active'`; on a client error it logs and returns `false`. -/
def storeBuyOrder (db : Db) (coin category subcategory : String)
    (quantity price usdtSpent : ℚ) (orderId timestamp : String) : Db × Bool :=
  let key := buyKey (getStrategyKey coin category subcategory)
  let orderData : PositionRecord :=
    { quantity := quantity, price := price, usdtSpent := usdtSpent,
      orderId := orderId, timestamp := timestamp, status := "active",
      coin := coin, category := category, subcategory := subcategory }
  if db.failPos key then (db, false)
  else
    ({ db with pos := fun k => if k = key then some orderData else db.pos k }, true)

/-- Method `getBuyPosition` (lines 924-948): returns `null` both when the hash is
empty and when the client call throws. -/
def getBuyPosition (db : Db) (coin category subcategory : String) :
    Option PositionRecord :=
  let key := buyKey (getStrategyKey coin category subcategory)
  if db.failPos key then none else db.pos key

/-- Method `clearBuyPosition` (lines 951-962): deletes the hash; returns `false`
on a client error. -/
def clearBuyPosition (db : Db) (coin category subcategory : String) : Db × Bool :=
  let key := buyKey (getStrategyKey coin category subcategory)
  if db.failPos key then (db, false)
  else ({ db with pos := fun k => if k = key then none else db.pos k }, true)

/-- Method `canBuy` (lines 964-968): `position === null || position.status !== 'active'`. -/
def canBuy (db : Db) (coin category subcategory : String) : Bool :=
  match getBuyPosition db coin category subcategory with
  | none => true
  | some p => decide (p.status ≠ "active")

/-- Method `canSell` (lines 970-974):
`position !== null && position.status === 'active' && position.quantity > 0`. -/
def canSell (db : Db) (coin category subcategory : String) : Bool :=
  match getBuyPosition db coin category subcategory with
  | none => false
  | some p => decide (p.status = "active") && decide (0 < p.quantity)

/-- Method `storeTradingBalance` (lines 976-988): `set` of the amount; `false` on
a client error. -/
def storeTradingBalance (db : Db) (coin category subcategory : String)
    (usdtAmount : ℚ) : Db × Bool :=
  let key := balanceKey (getStrategyKey coin category subcategory)
  if db.failBal key then (db, false)
  else ({ db with bal := fun k => if k = key then some usdtAmount else db.bal k }, true)

/-- Method `getTradingBalance` (lines 990-1005): the stored balance, or
`config.BUY_AMOUNT_USDT` both when no balance is stored and when the read
throws. -/
def getTradingBalance (cfg : Config) (db : Db) (coin category subcategory : String) : ℚ :=
  let key := balanceKey (getStrategyKey coin category subcategory)
  if db.failBal key then cfg.BUY_AMOUNT_USDT
  else
    match db.bal key with
    | none => cfg.BUY_AMOUNT_USDT
    | some b => b

/-- Method `isFirstTrade` (lines 1007-1024): true iff neither a balance nor a
position exists; a throwing read yields `true` ("Assume first trade if
error"). -/
def isFirstTrade (db : Db) (coin category subcategory : String) : Bool :=
  let ref := getStrategyKey coin category subcategory
  if db.failBal (balanceKey ref) || db.failPos (buyKey ref) then true
  else (db.bal (balanceKey ref)).isNone && (db.pos (buyKey ref)).isNone

/-! ## String primitives

The JS string methods the source relies on (`toLowerCase`, `toUpperCase`,
`trim`, `split`, `includes`, `join`), implemented by structural recursion
over the character list so that every definition evaluates inside the
kernel. -/

/-- Whitespace recognized by the JS `trim`/`parseFloat` prologue. -/
def charWs (c : Char) : Bool :=
  c = ' ' || c = '\t' || c = '\n' || c = '\r' || c = '\x0b' || c = '\x0c'

/-- JS `toLowerCase` (ASCII, which is all the source compares). -/
def strLower (s : String) : String := ⟨s.data.map Char.toLower⟩

/-- JS `toUpperCase` (ASCII). -/
def strUpper (s : String) : String := ⟨s.data.map Char.toUpper⟩

/-- JS `trim`. -/
def strTrim (s : String) : String :=
  ⟨((s.data.dropWhile charWs).reverse.dropWhile charWs).reverse⟩

/-- JS `includes(c)` for a single-character needle. -/
def strContains (s : String) (c : Char) : Bool := s.data.contains c

/-- Split off everything before/after the first occurrence of `sep`. -/
def splitFirst (sep : List Char) : List Char → Option (List Char × List Char)
  | [] => none
  | c :: rest =>
    if sep.isPrefixOf (c :: rest) then some ([], (c :: rest).drop sep.length)
    else
      match splitFirst sep rest with
      | none => none
      | some (pre, post) => some (c :: pre, post)

/-- Fuelled splitting loop (`sep` is non-empty at every call site, so one
unit of fuel per character suffices). -/
def splitOnFuel (sep : List Char) : ℕ → List Char → List (List Char)
  | 0, l => [l]
  | Nat.succ fuel, l =>
    match splitFirst sep l with
    | none => [l]
    | some (pre, post) => pre :: splitOnFuel sep fuel post

/-- JS `split(sep)` for a non-empty separator. -/
def strSplitOn (s sep : String) : List String :=
  (splitOnFuel sep.data (s.data.length + 1) s.data).map fun l => (⟨l⟩ : String)

/-! ## OKXClient (src/index.js lines 1036-1296)

The HMAC-SHA256 primitive (`crypto.createHmac(...).digest('base64')`) is a
library call, modelled as an abstract parameter `hmacB64 : secret → message
→ tag`; the request-time clock (`new Date().toISOString()`) is the
`timestamp` parameter. -/

/-- The credentials held by `OKXClient` (lines 1038-1043). -/
structure Creds where
  apiKey : String
  secretKey : String
  passphrase : String

/-- Method `OKXClient.sign` (lines 1046-1051): HMAC-SHA256 over
`timestamp + method + path + body`, base64-encoded. -/
def sign (hmacB64 : String → String → String) (c : Creds)
    (timestamp method path body : String) : String :=
  hmacB64 c.secretKey (timestamp ++ method ++ path ++ body)

/-- The query string `new URLSearchParams(params).toString()` for the plain key/value maps
the client sends (no characters needing percent-escaping occur in them). -/
def queryStringOf (params : List (String × String)) : String :=
  String.intercalate "&" (params.map fun p => p.1 ++ "=" ++ p.2)

/-- The outbound HTTP request assembled by `OKXClient.request`
(lines 1054-1086): url, the four OKX auth headers, content type, and the
serialized body when one is sent. -/
structure HttpRequest where
  url : String
  accessKey : String
  accessSign : String
  accessTimestamp : String
  accessPassphrase : String
  contentType : String
  data : Option String
  deriving DecidableEq, Repr

/-- Method `OKXClient.request` (lines 1054-1086). `body` is the request body
already serialized by `JSON.stringify` (`none` for bodyless requests, for
which `bodyStr` is the empty string). For GET requests with a non-empty
query string the query is appended to both the url and the signed path. -/
def request (hmacB64 : String → String → String) (c : Creds) (baseURL : String)
    (timestamp method path : String) (params : Option (List (String × String)))
    (body : Option String) : HttpRequest :=
  let signedPath :=
    if method = "GET" then
      match params with
      | some ps => if queryStringOf ps ≠ "" then path ++ "?" ++ queryStringOf ps else path
      | none => path
    else path
  let bodyStr := match body with | some b => b | none => ""
  { url := baseURL ++ signedPath
    accessKey := c.apiKey
    accessSign := sign hmacB64 c timestamp method signedPath bodyStr
    accessTimestamp := timestamp
    accessPassphrase := c.passphrase
    contentType := "application/json"
    data := if body.isSome then some bodyStr else none }

/-- JS `String.prototype.replace` with a string pattern: replaces only the
first occurrence (patterns used by the source are non-empty). -/
def replaceFirst (s pat rep : String) : String :=
  match strSplitOn s pat with
  | [] => s
  | [x] => x
  | x :: y :: rest => x ++ rep ++ String.intercalate pat (y :: rest)

/-- The alternative formats tried by `validateSymbol` (lines 1268-1272):
separator removed, separator replaced by underscore, quote asset swapped
from USDT to USD. -/
def symbolAlternatives (symbol : String) : List String :=
  [replaceFirst symbol "-" "", replaceFirst symbol "-" "_",
   replaceFirst symbol "-USDT" "-USD"]

/-- Method `OKXClient.validateSymbol` (lines 1253-1295): look the symbol up as
given; on a miss try each alternative format (skipping ones equal to the
original) and succeed on the first hit; `false` once everything missed.
`lookup` models the exchange's instrument table (`/api/v5/public/instruments`
returning a non-empty `data`). -/
def validateSymbol (lookup : String → Bool) (symbol : String) : Bool :=
  if lookup symbol then true
  else (symbolAlternatives symbol).any fun alt => decide (alt ≠ symbol) && lookup alt

/-- JS `Number.prototype.toFixed(4)` on the model's rationals: rounding
half away from zero to four decimal places. -/
def toFixed4 (q : ℚ) : ℚ :=
  if q < 0 then -((Int.floor (-q * 10000 + 1/2) : ℚ) / 10000)
  else (Int.floor (q * 10000 + 1/2) : ℚ) / 10000

/-- An order request submitted to the exchange: a plain market or limit
order (`/api/v5/trade/order`, lines 1118-1168) or a conditional algo
(stop-loss) order (`/api/v5/trade/order-algo`, lines 1196-1207). -/
inductive OrderReq where
  | market (symbol side : String) (sz : ℚ)
  | limit (symbol side : String) (sz px : ℚ)
  | algoConditional (symbol side : String) (sz slTriggerPx : ℚ)
  deriving DecidableEq, Repr

/-- Whether an order request is the protective conditional stop order. -/
def OrderReq.isProtective : OrderReq → Bool
  | .algoConditional _ _ _ _ => true
  | _ => false

/-- Exchange responses consumed by `placeOrderWithSLTP`: the primary
market-order result (`ordId`, or `null` on rejection/error), the ticker
used to price the stop (`last`, or `null`), and whether the algo-order
request throws a transport error (a non-zero exchange code does not
throw and is not checked by the source). -/
structure SLTPEnv where
  mainOrder : Option String
  ticker : Option ℚ
  algoThrows : Bool

/-- Method `OKXClient.placeOrderWithSLTP` (lines 1170-1215): place the primary
market order; on success compute a stop trigger from the ticker (below
entry for a buy, above for a sell) and submit a conditional stop order for
the opposite side. Returns the primary order result paired with the list
of requests submitted. A missing ticker skips the stop and still returns
the primary order; a thrown algo request is caught and the whole call
returns `none` even though the primary order stands. -/
def placeOrderWithSLTP (env : SLTPEnv) (symbol side : String)
    (amount stopLoss takeProfit : ℚ) : Option String × List OrderReq :=
  match env.mainOrder with
  | none => (none, [OrderReq.market symbol side amount])
  | some mo =>
    match env.ticker with
    | none => (some mo, [OrderReq.market symbol side amount])
    | some currentPrice =>
      let slPrice :=
        if side = "buy" then currentPrice * (1 - stopLoss / 100)
        else currentPrice * (1 + stopLoss / 100)
      let algoReq := OrderReq.algoConditional symbol
        (if side = "buy" then "sell" else "buy") amount (toFixed4 slPrice)
      if env.algoThrows then (none, [OrderReq.market symbol side amount, algoReq])
      else (some mo, [OrderReq.market symbol side amount, algoReq])

/-! ## TradingViewParser (src/index.js lines 1298-1377) -/

/-- Whitespace skipped by JS `parseFloat` before the number. -/
def isJsWs (c : Char) : Bool :=
  c = ' ' || c = '\t' || c = '\n' || c = '\r' || c = '\x0b' || c = '\x0c'

/-- Value of a digit run, most significant first. -/
def digitsToNat (l : List Char) : ℕ :=
  l.foldl (fun n c => 10 * n + (c.toNat - 48)) 0

/-- JS `parseFloat` on decimal input: skip leading whitespace, optional
sign, integer digits, optional fraction, optional exponent; the longest
numeric prefix is taken and trailing garbage ignored; `none` stands for
`NaN` (no digits at all). -/
def jsParseFloat (s : String) : Option ℚ :=
  let l := s.data.dropWhile isJsWs
  let (sgn, l1) : ℤ × List Char :=
    match l with
    | '-' :: r => (-1, r)
    | '+' :: r => (1, r)
    | _ => (1, l)
  let ip := l1.takeWhile Char.isDigit
  let r1 := l1.dropWhile Char.isDigit
  let (fp, r2) : List Char × List Char :=
    match r1 with
    | '.' :: r => (r.takeWhile Char.isDigit, r.dropWhile Char.isDigit)
    | _ => ([], r1)
  if ip = [] && fp = [] then none
  else
    let e : ℤ :=
      match r2 with
      | 'e' :: '-' :: r => if (r.takeWhile Char.isDigit) = [] then 0
          else -(digitsToNat (r.takeWhile Char.isDigit) : ℤ)
      | 'E' :: '-' :: r => if (r.takeWhile Char.isDigit) = [] then 0
          else -(digitsToNat (r.takeWhile Char.isDigit) : ℤ)
      | 'e' :: '+' :: r => if (r.takeWhile Char.isDigit) = [] then 0
          else (digitsToNat (r.takeWhile Char.isDigit) : ℤ)
      | 'E' :: '+' :: r => if (r.takeWhile Char.isDigit) = [] then 0
          else (digitsToNat (r.takeWhile Char.isDigit) : ℤ)
      | 'e' :: r => if (r.takeWhile Char.isDigit) = [] then 0
          else (digitsToNat (r.takeWhile Char.isDigit) : ℤ)
      | 'E' :: r => if (r.takeWhile Char.isDigit) = [] then 0
          else (digitsToNat (r.takeWhile Char.isDigit) : ℤ)
      | _ => 0
    let numer : ℤ := sgn * (digitsToNat ip * 10 ^ fp.length + digitsToNat fp)
    some (if 0 ≤ e then mkRat (numer * 10 ^ e.toNat) (10 ^ fp.length)
          else mkRat numer (10 ^ fp.length * 10 ^ (-e).toNat))

/-- The mapping `parseFloat(value) || null` as used on every numeric field of the
parser (lines 1336, 1339, 1348, 1351, 1354): `NaN` and `0` both collapse
to `null`. -/
def jsNumOrNull (value : String) : Option ℚ :=
  match jsParseFloat value with
  | none => none
  | some q => if q = 0 then none else some q

/-- The record built up by `TradingViewParser.parseMessage`. -/
structure Parsed where
  symbol : Option String := none
  coin : Option String := none
  category : Option String := none
  subcategory : Option String := none
  action : Option String := none
  quantity : Option ℚ := none
  amount : Option ℚ := none
  recurringMode : Option String := none
  orderType : Option String := none
  price : Option ℚ := none
  initialAmount : Option ℚ := none
  initialQuantity : Option ℚ := none
  deriving DecidableEq, Repr

/-- The `switch (key.toLowerCase().trim())` body of `parseMessage`
(lines 1311-1356), applied to one recognized key/value pair. -/
def applyKV (p : Parsed) (key value : String) : Parsed :=
  if key = "coin" then
    let coinPair0 := strUpper ⟨value.data.map fun c => if c = ';' then '-' else c⟩
    let coinPair := if strContains coinPair0 '-' then coinPair0 else coinPair0 ++ "-USDT"
    { p with symbol := some coinPair,
             coin := some ((strSplitOn coinPair "-").headD "") }
  else if key = "cat" then { p with category := some value }
  else if key = "scat" then { p with subcategory := some value }
  else if key = "action" then { p with action := some (strLower value) }
  else if key = "quantity" then { p with quantity := jsNumOrNull value }
  else if key = "amount" then { p with amount := jsNumOrNull value }
  else if key = "recurringmode" then { p with recurringMode := some (strLower value) }
  else if key = "ordertype" then { p with orderType := some (strLower value) }
  else if key = "price" then { p with price := jsNumOrNull value }
  else if key = "initialamount" then { p with initialAmount := jsNumOrNull value }
  else if key = "initialquantity" then { p with initialQuantity := jsNumOrNull value }
  else p

/-- One iteration of the line loop of `parseMessage` (lines 1306-1358):
split on `:`, rejoin the tail as the value, dispatch on the key. -/
def parseLine (p : Parsed) (line : String) : Parsed :=
  if strContains line ':' then
    match strSplitOn line ":" with
    | [] => p
    | key :: valueParts =>
      applyKV p (strTrim (strLower key)) (strTrim (String.intercalate ":" valueParts))
  else p

/-- Method `TradingViewParser.parseMessage` (lines 1300-1376): trim and drop blank
lines, fold the key/value lines, then validate `action` and the symbol. -/
def parseMessage (message : String) : Except String Parsed :=
  let lines := ((strSplitOn message "\n").map strTrim).filter (· ≠ "")
  let parsed := lines.foldl parseLine {}
  if ¬ (parsed.action = some "buy" ∨ parsed.action = some "sell") then
    Except.error "Invalid or missing action"
  else if parsed.symbol = none then
    Except.error "Missing coin pair"
  else Except.ok parsed

/-! ## SignalManager (src/index.js lines 1379-1709)

A signal object as handed to `processSignal`: string fields are `Option
String` (`none` = absent), the three numeric fields `Option ℚ`. This
covers parser output and JSON webhook payloads whose numeric fields are
numbers. -/

structure Signal where
  action : Option String := none
  symbol : Option String := none
  coin : Option String := none
  recurringMode : Option String := none
  orderType : Option String := none
  category : Option String := none
  subcategory : Option String := none
  price : Option ℚ := none
  initialAmount : Option ℚ := none
  initialQuantity : Option ℚ := none
  deriving DecidableEq, Repr

/-- The per-field normalization loop (lines 1432-1445) on a string field:
the literal `"n/a"` (case-insensitively) becomes `null`, anything else is
lowercased. -/
def normStr : Option String → Option String
  | none => none
  | some v => if strLower v = "n/a" then none else some (strLower v)

/-- Lines 1462-1464: `x = x || null` on a numeric field — `0` (and `null`)
collapse to `null`. -/
def normNum : Option ℚ → Option ℚ
  | none => none
  | some q => if q = 0 then none else some q

/-- A signal after the normalization and validation prologue of
`processSignal` (lines 1432-1501): action/symbol/coin validated and
present, orderType and recurringMode defaulted. -/
structure NormSig where
  action : String
  symbol : String
  coin : String
  category : Option String
  subcategory : Option String
  recurringMode : String
  orderType : String
  price : Option ℚ
  initialAmount : Option ℚ
  initialQuantity : Option ℚ
  deriving DecidableEq, Repr

/-- The `category` argument handed to the TradeDatabase: an absent field
interpolates as the string `"undefined"` in the template literal of
`getStrategyKey`. -/
def nsCat (ns : NormSig) : String := ns.category.getD "undefined"

/-- The `subcategory` argument handed to the TradeDatabase. -/
def nsScat (ns : NormSig) : String := ns.subcategory.getD "undefined"

/-- Lines 1466-1469: the order type, defaulted to `limit` iff a price
survived the `|| null` collapsing and to `market` otherwise. -/
def normOrderType (sig : Signal) : String :=
  match normStr sig.orderType with
  | some t => t
  | none => if (normNum sig.price).isSome then "limit" else "market"

/-- Lines 1477-1480: the recurring mode, `'am'` unless the value is one
of the recognized tokens `'am'` / `'qu'`. -/
def normRecurringMode (sig : Signal) : String :=
  match normStr sig.recurringMode with
  | some r => if r = "am" ∨ r = "qu" then r else "am"
  | none => "am"

/-- The normalization/validation prologue of `processSignal`
(lines 1432-1501), in source order: lowercase + `"n/a"`→null on string
fields and `|| null` on numeric fields, orderType defaulting and
validation, recurringMode defaulting, coin/symbol upper-casing, action
validation, coin/symbol presence validation. -/
def normalizeSignal (sig : Signal) : Except String NormSig :=
  if ¬ (normOrderType sig = "market" ∨ normOrderType sig = "limit") then
    Except.error ("Invalid orderType: " ++ normOrderType sig ++ ". Must be 'market' or 'limit'")
  else
    match normStr sig.action with
    | none => Except.error "Invalid or missing action"
    | some action =>
      if ¬ (action = "buy" ∨ action = "sell") then
        Except.error "Invalid or missing action"
      else
        match (normStr sig.symbol).map strUpper, (normStr sig.coin).map strUpper with
        | some s, some c =>
          if s = "" ∨ c = "" then Except.error "Missing coin or symbol information"
          else
            Except.ok { action := action, symbol := s, coin := c,
                        category := normStr sig.category,
                        subcategory := normStr sig.subcategory,
                        recurringMode := normRecurringMode sig,
                        orderType := normOrderType sig,
                        price := normNum sig.price,
                        initialAmount := normNum sig.initialAmount,
                        initialQuantity := normNum sig.initialQuantity }
        | _, _ => Except.error "Missing coin or symbol information"

/-- The cooldown map key (lines 1400-1414): `symbol-action-subcategory`,
or `symbol-action` when the subcategory is absent or empty (JS-falsy). -/
def cooldownKey (symbol action : String) (subcategory : Option String) : String :=
  match subcategory with
  | some s => if s ≠ "" then symbol ++ "-" ++ action ++ "-" ++ s
              else symbol ++ "-" ++ action
  | none => symbol ++ "-" ++ action

/-- Mutable state owned by the SignalManager: the cooldown and daily-trade
maps plus the Redis-backed TradeDatabase. -/
structure SMState where
  cooldowns : String → Option ℤ
  dailyTrades : String → Option ℕ
  db : Db

/-- Method `isInCooldown` (lines 1400-1408): a previous execution exists and
less than `COOLDOWN_SECONDS * 1000` ms have elapsed since it. -/
def isInCooldown (cfg : Config) (st : SMState) (now : ℤ)
    (symbol action : String) (subcategory : Option String) : Bool :=
  match st.cooldowns (cooldownKey symbol action subcategory) with
  | none => false
  | some t => decide (now - t < cfg.COOLDOWN_SECONDS * 1000)

/-- The check `!balance || balance.available < amount` — the insufficient-funds
check used on every amount-sized buy path (lines 1556, 1565, 1575). -/
def balInsufficient (balance : Option ℚ) (amount : ℚ) : Bool :=
  match balance with
  | none => true
  | some b => decide (b < amount)

/-- The order-sizing step (lines 1540-1617). Returns
`(positionSize, tradingAmount)`; `tradingAmount` is `none` on the paths
where the source leaves the variable undefined (quantity-sized orders).
`balance` is the `available` field of `getBalance('USDT')`, `none` when
that call returned `null`. -/
def sizeOrder (cfg : Config) (db : Db) (balance : Option ℚ) (ns : NormSig) :
    Except String (ℚ × Option ℚ) :=
  if ns.action = "buy" then
    if isFirstTrade db ns.coin (nsCat ns) (nsScat ns) then
      match ns.initialQuantity with
      | some iq => Except.ok (iq, none)
      | none =>
        match ns.initialAmount with
        | some ia =>
          if balInsufficient balance ia then
            Except.error "Insufficient USDT balance for trade"
          else Except.ok (ia, some ia)
        | none =>
          if balInsufficient balance cfg.BUY_AMOUNT_USDT then
            Except.error "Insufficient USDT balance for trade"
          else Except.ok (cfg.BUY_AMOUNT_USDT, some cfg.BUY_AMOUNT_USDT)
    else
      let ta := getTradingBalance cfg db ns.coin (nsCat ns) (nsScat ns)
      if balInsufficient balance ta then
        Except.error "Insufficient USDT balance for trade"
      else Except.ok (ta, some ta)
  else
    let buyPosition := getBuyPosition db ns.coin (nsCat ns) (nsScat ns)
    if isFirstTrade db ns.coin (nsCat ns) (nsScat ns) then
      match ns.initialQuantity with
      | some iq => Except.ok (iq, none)
      | none =>
        if ns.recurringMode = "am" then
          Except.error ("Cannot sell on first trade for Am mode. Must buy first - Strategy: "
            ++ getStrategyKey ns.coin (nsCat ns) (nsScat ns))
        else
          match buyPosition with
          | none => Except.error ("No buy position to sell for strategy: "
              ++ getStrategyKey ns.coin (nsCat ns) (nsScat ns))
          | some p => Except.ok (p.quantity, none)
    else
      match buyPosition with
      | none => Except.error ("No buy position to sell for strategy: "
          ++ getStrategyKey ns.coin (nsCat ns) (nsScat ns))
      | some p => Except.ok (p.quantity, none)

/-- The order placement choice (lines 1619-1625): a limit order iff the
orderType is `limit` and a price survived normalization, else market. -/
def orderReqOf (ns : NormSig) (positionSize : ℚ) : OrderReq :=
  if ns.orderType = "limit" ∧ ns.price.isSome then
    OrderReq.limit ns.symbol ns.action positionSize (ns.price.getD 0)
  else OrderReq.market ns.symbol ns.action positionSize

/-- The post-order bookkeeping (lines 1627-1683). On a buy: fetch the
ticker, fall back to `price || 0`, derive quantity/spend, store the
position. On a sell: fetch the ticker the same way, compute proceeds;
in `'am'` mode store the proceeds as the next trading balance, in `'qu'`
mode re-read the position and store its original `usdtSpent`; then clear
the position. -/
def bookkeep (postTicker : Option ℚ) (nowIso : String) (db : Db) (ns : NormSig)
    (positionSize : ℚ) (tradingAmount : Option ℚ) (ordId : String) : Db :=
  if ns.action = "buy" then
    let purchasePrice := postTicker.getD (ns.price.getD 0)
    match ns.initialQuantity with
    | some iq =>
      (storeBuyOrder db ns.coin (nsCat ns) (nsScat ns) iq purchasePrice
        (iq * purchasePrice) ordId nowIso).1
    | none =>
      let amountSpent := tradingAmount.getD 0
      let quantityBought := if 0 < purchasePrice then amountSpent / purchasePrice else 0
      (storeBuyOrder db ns.coin (nsCat ns) (nsScat ns) quantityBought purchasePrice
        amountSpent ordId nowIso).1
  else
    let currentPrice := postTicker.getD (ns.price.getD 0)
    let sellProceeds := currentPrice * positionSize
    let db1 :=
      if ns.recurringMode = "am" then
        (storeTradingBalance db ns.coin (nsCat ns) (nsScat ns) sellProceeds).1
      else if ns.recurringMode = "qu" then
        match getBuyPosition db ns.coin (nsCat ns) (nsScat ns) with
        | some bp => (storeTradingBalance db ns.coin (nsCat ns) (nsScat ns) bp.usdtSpent).1
        | none => db
      else db
    (clearBuyPosition db1 ns.coin (nsCat ns) (nsScat ns)).1

/-- The exchange's responses during one `processSignal` run: the
instrument table consulted by `validateSymbol`, the available USDT
balance (`none` when `getBalance` returned `null`), the result of the
order placement (`ordId`, or `none` on rejection/error), and the
post-trade ticker's `last` price. -/
structure ExchangeEnv where
  lookup : String → Bool
  usdtBalance : Option ℚ
  orderId : Option String
  postTicker : Option ℚ

/-- The structured result returned to the caller. -/
inductive ProcResult where
  | failure (error : String)
  | success (action symbol coin : String) (amount : ℚ) (orderType recurringMode : String)
  deriving DecidableEq, Repr

/-- Whether a result is a failure. -/
def ProcResult.isFailure : ProcResult → Bool
  | .failure _ => true
  | _ => false

/-- Everything one `processSignal` run produces: the result, the updated
manager state, and the order requests submitted to the exchange. -/
structure ProcOutcome where
  result : ProcResult
  state : SMState
  orders : List OrderReq

/-- Body of `processSignal` after a successful normalization prologue
(lines 1503-1708), in source order: symbol validation, ledger
eligibility, cooldown, daily limit (incremented when passed), balance
fetch, sizing, order placement, and on success cooldown stamping plus
ledger bookkeeping. -/
def processNorm (cfg : Config) (env : ExchangeEnv) (now : ℤ)
    (today nowIso : String) (st : SMState) (ns : NormSig) : ProcOutcome :=
  if validateSymbol env.lookup ns.symbol then
    if ns.action = "buy" ∧ canBuy st.db ns.coin (nsCat ns) (nsScat ns) = false then
      ⟨.failure ("Already have active position for strategy: "
          ++ getStrategyKey ns.coin (nsCat ns) (nsScat ns)), st, []⟩
    else if ns.action = "sell" ∧ canSell st.db ns.coin (nsCat ns) (nsScat ns) = false then
      ⟨.failure ("No active position to sell for strategy: "
          ++ getStrategyKey ns.coin (nsCat ns) (nsScat ns)), st, []⟩
    else if isInCooldown cfg st now ns.symbol ns.action ns.subcategory then
      ⟨.failure "Signal in cooldown period", st, []⟩
    else if cfg.MAX_DAILY_TRADES ≤ (st.dailyTrades today).getD 0 then
      ⟨.failure "Daily trade limit reached", st, []⟩
    else
      let st1 : SMState :=
        { st with dailyTrades := fun k =>
            if k = today then some ((st.dailyTrades today).getD 0 + 1)
            else st.dailyTrades k }
      match sizeOrder cfg st1.db env.usdtBalance ns with
      | .error e => ⟨.failure e, st1, []⟩
      | .ok (positionSize, tradingAmount) =>
        match env.orderId with
        | none => ⟨.failure "Order execution failed", st1, [orderReqOf ns positionSize]⟩
        | some ordId =>
          let st2 : SMState :=
            { st1 with cooldowns := fun k =>
                if k = cooldownKey ns.symbol ns.action ns.subcategory then some now
                else st1.cooldowns k }
          let db2 := bookkeep env.postTicker nowIso st2.db ns positionSize tradingAmount ordId
          ⟨.success ns.action ns.symbol ns.coin positionSize ns.orderType ns.recurringMode,
           { st2 with db := db2 }, [orderReqOf ns positionSize]⟩
  else
    ⟨.failure ("Symbol " ++ ns.symbol ++ " not available on OKX"), st, []⟩

/-- Method `SignalManager.processSignal` (lines 1429-1708): the normalization
prologue followed by the pipeline above; a prologue error is returned to
the caller with no side effects. -/
def processSignal (cfg : Config) (env : ExchangeEnv) (now : ℤ)
    (today nowIso : String) (st : SMState) (sig : Signal) : ProcOutcome :=
  match normalizeSignal sig with
  | .error e => ⟨.failure e, st, []⟩
  | .ok ns => processNorm cfg env now today nowIso st ns

/-! ## Concrete instances used to exercise the model -/

/-- An instrument table knowing only `DOGE-USDT`. -/
def wLookup : String → Bool := fun s => s == "DOGE-USDT"

/-- An instrument table knowing only `SOL-USD`. -/
def wLookupUsd : String → Bool := fun s => s == "SOL-USD"

/-- An empty, healthy Redis store. -/
def wDb0 : Db := ⟨fun _ => none, fun _ => none, fun _ => false, fun _ => false⟩

/-- Fresh manager state over the empty store. -/
def wSt0 : SMState := ⟨fun _ => none, fun _ => none, wDb0⟩

/-- An open position: 1250 DOGE bought at 0.08 for 100 USDT. -/
def wPos : PositionRecord :=
  ⟨1250, mkRat 2 25, 100, "oid1", "t0", "active", "DOGE", "momentum", "1m"⟩

/-- A store holding `wPos` under strategy `DOGE:momentum:1m`. -/
def wDbPos : Db :=
  ⟨fun k => if k = "buy:DOGE:momentum:1m" then some wPos else none,
   fun _ => none, fun _ => false, fun _ => false⟩

/-- Manager state over `wDbPos`. -/
def wStPos : SMState := ⟨fun _ => none, fun _ => none, wDbPos⟩

/-- A store on which every Redis operation throws. -/
def wDbErr : Db := ⟨fun _ => none, fun _ => none, fun _ => true, fun _ => true⟩

/-- Manager state over the failing store. -/
def wStErr : SMState := ⟨fun _ => none, fun _ => none, wDbErr⟩

/-- Healthy exchange: 500 USDT available, orders fill, ticker 0.085. -/
def wEnv : ExchangeEnv := ⟨wLookup, some 500, some "oid2", some (mkRat 17 200)⟩

/-- Exchange whose post-trade ticker call fails (5000 USDT available). -/
def wEnvNoTicker : ExchangeEnv := ⟨wLookup, some 5000, some "oid3", none⟩

/-- A buy alert with `initialAmount = 100`. -/
def wSigBuy : Signal :=
  { action := some "buy"
    symbol := some "doge-usdt"
    coin := some "doge"
    category := some "momentum"
    subcategory := some "1m"
    initialAmount := some 100 }

/-- The same buy alert without sizing overrides. -/
def wSigBuyDefault : Signal := { wSigBuy with initialAmount := none }

/-- A sell alert in amount mode for the same strategy. -/
def wSigSellAm : Signal :=
  { action := some "sell"
    symbol := some "doge-usdt"
    coin := some "doge"
    category := some "momentum"
    subcategory := some "1m"
    recurringMode := some "am" }

/-- The same sell alert in quantity mode. -/
def wSigSellQu : Signal := { wSigSellAm with recurringMode := some "qu" }

/-- Signal `wSigBuy` after the normalization prologue. -/
def wNsBuy : NormSig :=
  ⟨"buy", "DOGE-USDT", "DOGE", some "momentum", some "1m", "am", "market",
   none, some 100, none⟩

/-- Signal `wSigBuyDefault` after the normalization prologue. -/
def wNsBuyDefault : NormSig := { wNsBuy with initialAmount := none }

/-- Signal `wSigSellAm` after the normalization prologue. -/
def wNsSellAm : NormSig :=
  ⟨"sell", "DOGE-USDT", "DOGE", some "momentum", some "1m", "am", "market",
   none, none, none⟩

/-- Signal `wSigSellQu` after the normalization prologue. -/
def wNsSellQu : NormSig := { wNsSellAm with recurringMode := "qu" }

/-- A stand-in MAC primitive for exercising the signing scheme. -/
def wHmac : String → String → String := fun secret msg => secret ++ "#" ++ msg

/-- Credentials for exercising the signing scheme. -/
def wCreds : Creds := ⟨"k1", "s1", "p1"⟩

/-- SLTP run whose protective request completes. -/
def wSltpOk : SLTPEnv := ⟨some "m1", some 100, false⟩

/-- SLTP run whose protective request throws after the primary filled. -/
def wSltpThrow : SLTPEnv := ⟨some "m1", some 100, true⟩

/-- A buy alert carrying an explicit price of 0 and no order type. -/
def wSigPriceZero : Signal :=
  { action := some "buy"
    symbol := some "doge-usdt"
    coin := some "doge"
    price := some 0 }

/-- Signal `wSigPriceZero` after the normalization prologue: the zero price is
gone and the order type defaulted to market. -/
def wNsPriceZero : NormSig :=
  ⟨"buy", "DOGE-USDT", "DOGE", none, none, "am", "market", none, none, none⟩

/-! ## Helper lemmas -/

theorem storeTradingBalance_bal_same (db : Db) (c cat s : String) (amt : ℚ)
    (h : db.failBal (balanceKey (getStrategyKey c cat s)) = false) :
    (storeTradingBalance db c cat s amt).1.bal (balanceKey (getStrategyKey c cat s)) =
      some amt := by
  simp [storeTradingBalance, h]

theorem storeTradingBalance_pos (db : Db) (c cat s : String) (amt : ℚ) :
    (storeTradingBalance db c cat s amt).1.pos = db.pos := by
  cases h : db.failBal (balanceKey (getStrategyKey c cat s)) <;>
    simp [storeTradingBalance, h]

theorem storeTradingBalance_failPos (db : Db) (c cat s : String) (amt : ℚ) :
    (storeTradingBalance db c cat s amt).1.failPos = db.failPos := by
  cases h : db.failBal (balanceKey (getStrategyKey c cat s)) <;>
    simp [storeTradingBalance, h]

theorem storeTradingBalance_failBal (db : Db) (c cat s : String) (amt : ℚ) :
    (storeTradingBalance db c cat s amt).1.failBal = db.failBal := by
  cases h : db.failBal (balanceKey (getStrategyKey c cat s)) <;>
    simp [storeTradingBalance, h]

theorem clearBuyPosition_bal (db : Db) (c cat s : String) :
    (clearBuyPosition db c cat s).1.bal = db.bal := by
  cases h : db.failPos (buyKey (getStrategyKey c cat s)) <;>
    simp [clearBuyPosition, h]

theorem clearBuyPosition_failBal (db : Db) (c cat s : String) :
    (clearBuyPosition db c cat s).1.failBal = db.failBal := by
  cases h : db.failPos (buyKey (getStrategyKey c cat s)) <;>
    simp [clearBuyPosition, h]

theorem clearBuyPosition_failPos (db : Db) (c cat s : String) :
    (clearBuyPosition db c cat s).1.failPos = db.failPos := by
  cases h : db.failPos (buyKey (getStrategyKey c cat s)) <;>
    simp [clearBuyPosition, h]

theorem clearBuyPosition_pos_same (db : Db) (c cat s : String)
    (h : db.failPos (buyKey (getStrategyKey c cat s)) = false) :
    (clearBuyPosition db c cat s).1.pos (buyKey (getStrategyKey c cat s)) = none := by
  simp [clearBuyPosition, h]

theorem storeBuyOrder_pos_same (db : Db) (c cat s : String) (q pr us : ℚ) (oid ts : String)
    (h : db.failPos (buyKey (getStrategyKey c cat s)) = false) :
    (storeBuyOrder db c cat s q pr us oid ts).1.pos (buyKey (getStrategyKey c cat s)) =
      some ⟨q, pr, us, oid, ts, "active", c, cat, s⟩ := by
  simp [storeBuyOrder, h]

theorem storeBuyOrder_bal (db : Db) (c cat s : String) (q pr us : ℚ) (oid ts : String) :
    (storeBuyOrder db c cat s q pr us oid ts).1.bal = db.bal := by
  cases h : db.failPos (buyKey (getStrategyKey c cat s)) <;>
    simp [storeBuyOrder, h]

theorem storeBuyOrder_failPos (db : Db) (c cat s : String) (q pr us : ℚ) (oid ts : String) :
    (storeBuyOrder db c cat s q pr us oid ts).1.failPos = db.failPos := by
  cases h : db.failPos (buyKey (getStrategyKey c cat s)) <;>
    simp [storeBuyOrder, h]

theorem storeBuyOrder_failBal (db : Db) (c cat s : String) (q pr us : ℚ) (oid ts : String) :
    (storeBuyOrder db c cat s q pr us oid ts).1.failBal = db.failBal := by
  cases h : db.failPos (buyKey (getStrategyKey c cat s)) <;>
    simp [storeBuyOrder, h]

/-- A buy against a ledger state without buy eligibility fails with no
order submitted (either at symbol validation or at the eligibility gate). -/
theorem processNorm_reject_buy (cfg : Config) (env : ExchangeEnv) (now : ℤ)
    (today nowIso : String) (st : SMState) (ns : NormSig)
    (h1 : ns.action = "buy")
    (h2 : canBuy st.db ns.coin (nsCat ns) (nsScat ns) = false) :
    (processNorm cfg env now today nowIso st ns).result.isFailure = true ∧
    (processNorm cfg env now today nowIso st ns).orders = [] := by
  unfold processNorm
  by_cases hv : validateSymbol env.lookup ns.symbol <;>
    simp [hv, h1, h2, ProcResult.isFailure]

/-- A sell against a ledger state without sell eligibility fails with no
order submitted. -/
theorem processNorm_reject_sell (cfg : Config) (env : ExchangeEnv) (now : ℤ)
    (today nowIso : String) (st : SMState) (ns : NormSig)
    (h1 : ns.action = "sell")
    (h2 : canSell st.db ns.coin (nsCat ns) (nsScat ns) = false) :
    (processNorm cfg env now today nowIso st ns).result.isFailure = true ∧
    (processNorm cfg env now today nowIso st ns).orders = [] := by
  unfold processNorm
  by_cases hv : validateSymbol env.lookup ns.symbol <;>
    simp [hv, h1, h2, ProcResult.isFailure]

/-- Unfolding `processSignal` after a successful prologue. -/
theorem processSignal_ok (cfg : Config) (env : ExchangeEnv) (now : ℤ)
    (today nowIso : String) (st : SMState) (sig : Signal) (ns : NormSig)
    (hnorm : normalizeSignal sig = Except.ok ns) :
    processSignal cfg env now today nowIso st sig =
      processNorm cfg env now today nowIso st ns := by
  unfold processSignal
  rw [hnorm]

/-- The whole pipeline on a run that reaches order placement and fills. -/
theorem processNorm_success (cfg : Config) (env : ExchangeEnv) (now : ℤ)
    (today nowIso : String) (st : SMState) (ns : NormSig) (q0 : ℚ)
    (ta : Option ℚ) (oid : String)
    (hv : validateSymbol env.lookup ns.symbol = true)
    (hb : ¬(ns.action = "buy" ∧ canBuy st.db ns.coin (nsCat ns) (nsScat ns) = false))
    (hs : ¬(ns.action = "sell" ∧ canSell st.db ns.coin (nsCat ns) (nsScat ns) = false))
    (hcd : isInCooldown cfg st now ns.symbol ns.action ns.subcategory = false)
    (hdl : (st.dailyTrades today).getD 0 < cfg.MAX_DAILY_TRADES)
    (hsize : sizeOrder cfg st.db env.usdtBalance ns = Except.ok (q0, ta))
    (hord : env.orderId = some oid) :
    processNorm cfg env now today nowIso st ns =
      ⟨ProcResult.success ns.action ns.symbol ns.coin q0 ns.orderType ns.recurringMode,
       ⟨fun k => if k = cooldownKey ns.symbol ns.action ns.subcategory then some now
                 else st.cooldowns k,
        fun k => if k = today then some ((st.dailyTrades today).getD 0 + 1)
                 else st.dailyTrades k,
        bookkeep env.postTicker nowIso st.db ns q0 ta oid⟩,
       [orderReqOf ns q0]⟩ := by
  unfold processNorm
  simp [hv, hb, hs, hcd, Nat.not_le.mpr hdl, hsize, hord]

/-! ## Claims -/

/-- C5: for every StrategyKey, `isFirstTrade` is true before any position
or balance has been written for that key, and false immediately after
either `storeBuyOrder` or `storeTradingBalance` has written to it. -/
theorem c5_isFirstTrade_roundtrip (db : Db) (c cat s : String) (amt q pr us : ℚ)
    (oid ts : String)
    (hfb : db.failBal (balanceKey (getStrategyKey c cat s)) = false)
    (hfp : db.failPos (buyKey (getStrategyKey c cat s)) = false)
    (hbal : db.bal (balanceKey (getStrategyKey c cat s)) = none)
    (hpos : db.pos (buyKey (getStrategyKey c cat s)) = none) :
    isFirstTrade db c cat s = true ∧
    isFirstTrade (storeBuyOrder db c cat s q pr us oid ts).1 c cat s = false ∧
    isFirstTrade (storeTradingBalance db c cat s amt).1 c cat s = false := by
  refine ⟨by simp [isFirstTrade, hfb, hfp, hbal, hpos], ?_, ?_⟩
  · simp [isFirstTrade, storeBuyOrder, hfb, hfp, hbal]
  · simp [isFirstTrade, storeTradingBalance, hfb, hfp, hpos]

/-- Witness for C5 on the empty store. -/
theorem c5_witness :
    wDb0.failBal (balanceKey (getStrategyKey "DOGE" "momentum" "1m")) = false ∧
    wDb0.failPos (buyKey (getStrategyKey "DOGE" "momentum" "1m")) = false ∧
    wDb0.bal (balanceKey (getStrategyKey "DOGE" "momentum" "1m")) = none ∧
    wDb0.pos (buyKey (getStrategyKey "DOGE" "momentum" "1m")) = none ∧
    (isFirstTrade wDb0 "DOGE" "momentum" "1m" = true ∧
     isFirstTrade (storeBuyOrder wDb0 "DOGE" "momentum" "1m" 1250 (mkRat 2 25) 100 "oid1" "t0").1
       "DOGE" "momentum" "1m" = false ∧
     isFirstTrade (storeTradingBalance wDb0 "DOGE" "momentum" "1m" 100).1
       "DOGE" "momentum" "1m" = false) :=
  ⟨rfl, rfl, rfl, rfl,
   c5_isFirstTrade_roundtrip wDb0 "DOGE" "momentum" "1m" 100 1250 (mkRat 2 25) 100
     "oid1" "t0" rfl rfl rfl rfl⟩

/-- C7: `validateSymbol` returns true iff the instrument table reports the
symbol as given or one of the canonicalization variants (separator
removed, separator replaced by underscore, quote asset swapped) that
differs from the original; it returns false only once all of these miss. -/
theorem c7_validateSymbol_canonicalization (lookup : String → Bool) (symbol : String) :
    validateSymbol lookup symbol = true ↔
      (lookup symbol = true ∨
        ∃ alt ∈ symbolAlternatives symbol, alt ≠ symbol ∧ lookup alt = true) := by
  unfold validateSymbol
  by_cases h : lookup symbol = true <;>
    simp [h, List.any_eq_true]

/-- Witness for C7: `SOL-USDT` is accepted through the `SOL-USD` variant. -/
theorem c7_witness : validateSymbol wLookupUsd "SOL-USDT" = true :=
  (c7_validateSymbol_canonicalization wLookupUsd "SOL-USDT").mpr
    (Or.inr ⟨"SOL-USD", by decide, by decide, by decide⟩)

/-- C8 (amended): when the balance read against the backing store fails,
the failure is swallowed rather than reported: `getTradingBalance` falls
back to the configured default `BUY_AMOUNT_USDT` (the value then used to
size a buy), and `isFirstTrade` returns true (an assumed first-trade
status). -/
theorem c8_error_reads_fall_back (cfg : Config) (db : Db) (c cat s : String)
    (hb : db.failBal (balanceKey (getStrategyKey c cat s)) = true) :
    getTradingBalance cfg db c cat s = cfg.BUY_AMOUNT_USDT ∧
    isFirstTrade db c cat s = true := by
  simp [getTradingBalance, isFirstTrade, hb]

/-- Witness for the amended C8 on the failing store. -/
theorem c8_witness :
    wDbErr.failBal (balanceKey (getStrategyKey "DOGE" "momentum" "1m")) = true ∧
    (getTradingBalance defaultConfig wDbErr "DOGE" "momentum" "1m" =
       defaultConfig.BUY_AMOUNT_USDT ∧
     isFirstTrade wDbErr "DOGE" "momentum" "1m" = true) :=
  ⟨rfl, c8_error_reads_fall_back defaultConfig wDbErr "DOGE" "momentum" "1m" rfl⟩

/-- Counterexample to C8 as stated: with every Redis operation failing,
no failure is reported — `getTradingBalance` yields the substitute
default 1000, `isFirstTrade` yields an assumed first-trade status, and a
buy signal still succeeds, sized by the fabricated default and submitted
to the exchange. -/
theorem c8_counterexample :
    getTradingBalance defaultConfig wDbErr "DOGE" "momentum" "1m" = 1000 ∧
    defaultConfig.BUY_AMOUNT_USDT = 1000 ∧
    isFirstTrade wDbErr "DOGE" "momentum" "1m" = true ∧
    (processSignal defaultConfig wEnvNoTicker 0 "d" "t1" wStErr wSigBuyDefault).result =
      ProcResult.success "buy" "DOGE-USDT" "DOGE" 1000 "market" "am" ∧
    (processSignal defaultConfig wEnvNoTicker 0 "d" "t1" wStErr wSigBuyDefault).orders =
      [OrderReq.market "DOGE-USDT" "buy" 1000] := by
  decide

/-- C6: every request carries signature
`hmac(secret, timestamp ++ method ++ requestPath ++ bodyJSON)` where the
request path includes the query string when one is present, the body is
the exact serialized payload (empty string when bodyless), and the
timestamp/key/passphrase headers are attached alongside a JSON content
type. -/
theorem c6_request_signing (hmacB64 : String → String → String) (c : Creds)
    (baseURL ts method path : String) (ps : List (String × String))
    (body : Option String) :
    ((request hmacB64 c baseURL ts method path none body).accessSign =
       hmacB64 c.secretKey (ts ++ method ++ path ++ body.getD "")) ∧
    (method = "GET" → queryStringOf ps ≠ "" →
      (request hmacB64 c baseURL ts method path (some ps) body).accessSign =
        hmacB64 c.secretKey
          (ts ++ method ++ (path ++ "?" ++ queryStringOf ps) ++ body.getD "")) ∧
    (request hmacB64 c baseURL ts method path none body).accessTimestamp = ts ∧
    (request hmacB64 c baseURL ts method path none body).accessKey = c.apiKey ∧
    (request hmacB64 c baseURL ts method path none body).accessPassphrase = c.passphrase ∧
    (request hmacB64 c baseURL ts method path none body).contentType = "application/json" ∧
    (body = none →
      (request hmacB64 c baseURL ts method path none body).data = none ∧ body.getD "" = "") ∧
    (∀ bj, body = some bj →
      (request hmacB64 c baseURL ts method path none body).data = some bj) := by
  refine ⟨?_, ?_, rfl, rfl, rfl, rfl, ?_, ?_⟩
  · cases body <;> simp [request, sign]
  · intro hm hq
    cases body <;> simp [request, sign, hm, hq]
  · intro hb
    subst hb
    simp [request]
  · intro bj hb
    subst hb
    simp [request]

/-- Witness for C6 at a concrete GET request with a query string. -/
theorem c6_witness :
    "GET" = "GET" ∧
    queryStringOf [("instId", "DOGE-USDT")] ≠ "" ∧
    (request wHmac wCreds "https://www.okx.com" "ts0" "GET" "/api/v5/market/ticker"
        (some [("instId", "DOGE-USDT")]) none).accessSign =
      wHmac wCreds.secretKey
        ("ts0" ++ "GET" ++ ("/api/v5/market/ticker" ++ "?" ++
          queryStringOf [("instId", "DOGE-USDT")]) ++ (none : Option String).getD "") :=
  ⟨rfl, by decide,
   ((c6_request_signing wHmac wCreds "https://www.okx.com" "ts0" "GET"
       "/api/v5/market/ticker" [("instId", "DOGE-USDT")] none).2.1 rfl (by decide))⟩

/-- C1: a processed signal submits an order only when the ledger
eligibility held immediately prior — a buy only when `canBuy` (no active
record), a sell only when `canSell` (an active record with positive
quantity) — and a signal in the wrong state yields a failure result with
no order submitted. -/
theorem c1_eligibility_gates_orders (cfg : Config) (env : ExchangeEnv) (now : ℤ)
    (today nowIso : String) (st : SMState) (sig : Signal) (ns : NormSig)
    (hnorm : normalizeSignal sig = Except.ok ns) :
    ((processSignal cfg env now today nowIso st sig).orders ≠ [] →
      (ns.action = "buy" → canBuy st.db ns.coin (nsCat ns) (nsScat ns) = true) ∧
      (ns.action = "sell" → canSell st.db ns.coin (nsCat ns) (nsScat ns) = true)) ∧
    (ns.action = "buy" → canBuy st.db ns.coin (nsCat ns) (nsScat ns) = false →
      (processSignal cfg env now today nowIso st sig).result.isFailure = true ∧
      (processSignal cfg env now today nowIso st sig).orders = []) ∧
    (ns.action = "sell" → canSell st.db ns.coin (nsCat ns) (nsScat ns) = false →
      (processSignal cfg env now today nowIso st sig).result.isFailure = true ∧
      (processSignal cfg env now today nowIso st sig).orders = []) := by
  rw [processSignal_ok cfg env now today nowIso st sig ns hnorm]
  refine ⟨?_, ?_, ?_⟩
  · intro h
    constructor
    · intro ha
      cases hcb : canBuy st.db ns.coin (nsCat ns) (nsScat ns) with
      | false =>
        exact absurd (processNorm_reject_buy cfg env now today nowIso st ns ha hcb).2 h
      | true => rfl
    · intro ha
      cases hcs : canSell st.db ns.coin (nsCat ns) (nsScat ns) with
      | false =>
        exact absurd (processNorm_reject_sell cfg env now today nowIso st ns ha hcs).2 h
      | true => rfl
  · intro ha hcb
    exact processNorm_reject_buy cfg env now today nowIso st ns ha hcb
  · intro ha hcs
    exact processNorm_reject_sell cfg env now today nowIso st ns ha hcs

/-- Witness for C1: a sell against an empty ledger is rejected with no
order submitted. -/
theorem c1_witness :
    normalizeSignal wSigSellAm = Except.ok wNsSellAm ∧
    wNsSellAm.action = "sell" ∧
    canSell wSt0.db wNsSellAm.coin (nsCat wNsSellAm) (nsScat wNsSellAm) = false ∧
    ((processSignal defaultConfig wEnv 0 "d" "t1" wSt0 wSigSellAm).result.isFailure = true ∧
     (processSignal defaultConfig wEnv 0 "d" "t1" wSt0 wSigSellAm).orders = []) :=
  ⟨rfl, rfl, rfl,
   (c1_eligibility_gates_orders defaultConfig wEnv 0 "d" "t1" wSt0 wSigSellAm
       wNsSellAm rfl).2.2 rfl rfl⟩

/-- Inverting a successful normalization prologue: the normalized price
is the `|| null`-collapsed input price, and the order type is the
explicit one or the price-driven default. -/
theorem normalizeSignal_ok_fields (sig : Signal) (ns : NormSig)
    (h : normalizeSignal sig = Except.ok ns) :
    ns.price = normNum sig.price ∧ ns.orderType = normOrderType sig := by
  unfold normalizeSignal at h
  repeat' split at h
  all_goals first
    | exact Except.noConfusion h
    | (injection h with h
       subst h
       exact ⟨rfl, rfl⟩)

/-- C10: during normalization every numeric field of a text-shaped alert
(quantity, amount, price, initialamount, initialquantity) whose value
fails to parse or parses to 0 becomes null, and a signal whose price is 0
is treated as priceless, so its order type defaults to market. -/
theorem c10_zero_numeric_null (p : Parsed) (v : String) (sig : Signal) (ns : NormSig)
    (hv : jsParseFloat v = none ∨ jsParseFloat v = some 0)
    (hp : sig.price = some 0)
    (hot : sig.orderType = none)
    (hns : normalizeSignal sig = Except.ok ns) :
    (applyKV p "quantity" v).quantity = none ∧
    (applyKV p "amount" v).amount = none ∧
    (applyKV p "price" v).price = none ∧
    (applyKV p "initialamount" v).initialAmount = none ∧
    (applyKV p "initialquantity" v).initialQuantity = none ∧
    ns.price = none ∧
    ns.orderType = "market" := by
  have hnn : jsNumOrNull v = none := by
    rcases hv with h | h <;> simp [jsNumOrNull, h]
  obtain ⟨h1, h2⟩ := normalizeSignal_ok_fields sig ns hns
  refine ⟨by simp [applyKV, hnn], by simp [applyKV, hnn], by simp [applyKV, hnn],
          by simp [applyKV, hnn], by simp [applyKV, hnn], ?_, ?_⟩
  · rw [h1, hp]
    simp [normNum]
  · rw [h2]
    simp [normOrderType, normStr, normNum, hp, hot]

/-- Witness for C10: the literal value `"0.0"` parses to 0 and is dropped;
a price-0 signal comes out priceless with a market order type. -/
theorem c10_witness :
    (jsParseFloat "0.0" = none ∨ jsParseFloat "0.0" = some 0) ∧
    wSigPriceZero.price = some 0 ∧
    wSigPriceZero.orderType = none ∧
    normalizeSignal wSigPriceZero = Except.ok wNsPriceZero ∧
    ((applyKV {} "quantity" "0.0").quantity = none ∧
     (applyKV {} "amount" "0.0").amount = none ∧
     (applyKV {} "price" "0.0").price = none ∧
     (applyKV {} "initialamount" "0.0").initialAmount = none ∧
     (applyKV {} "initialquantity" "0.0").initialQuantity = none ∧
     wNsPriceZero.price = none ∧
     wNsPriceZero.orderType = "market") :=
  ⟨Or.inr (by decide), rfl, rfl, rfl,
   c10_zero_numeric_null {} "0.0" wSigPriceZero wNsPriceZero
     (Or.inr (by decide)) rfl rfl rfl⟩

/-- Helper `orderReqOf` only ever produces a plain market or limit order. -/
theorem orderReqOf_not_protective (ns : NormSig) (q : ℚ) :
    (orderReqOf ns q).isProtective = false := by
  unfold orderReqOf
  split <;> rfl

/-- One `processNorm` run submits either nothing or exactly the single
primary order chosen by `orderReqOf`. -/
theorem processNorm_orders_shape (cfg : Config) (env : ExchangeEnv) (now : ℤ)
    (today nowIso : String) (st : SMState) (ns : NormSig) :
    (processNorm cfg env now today nowIso st ns).orders = [] ∨
      ∃ q, (processNorm cfg env now today nowIso st ns).orders = [orderReqOf ns q] := by
  unfold processNorm
  by_cases hv : validateSymbol env.lookup ns.symbol
  case neg => simp [hv]
  simp only [hv, if_true]
  split_ifs <;> try (left; rfl)
  rcases hsz : sizeOrder cfg st.db env.usdtBalance ns with e | ⟨q, ta⟩ <;>
    simp [hsz]
  rcases ho : env.orderId with _ | oid <;> simp [ho]

/-- Counterexample to C2 as stated: a successful standard buy submits
exactly one plain market order with no protective stop/take-profit
attached; and in `placeOrderWithSLTP` a thrown protective request makes
the whole call report failure even though the primary order was placed. -/
theorem c2_counterexample :
    (processSignal defaultConfig wEnv 0 "d" "t1" wSt0 wSigBuy).result =
      ProcResult.success "buy" "DOGE-USDT" "DOGE" 100 "market" "am" ∧
    (processSignal defaultConfig wEnv 0 "d" "t1" wSt0 wSigBuy).orders =
      [OrderReq.market "DOGE-USDT" "buy" 100] ∧
    ((processSignal defaultConfig wEnv 0 "d" "t1" wSt0 wSigBuy).orders.any
      OrderReq.isProtective) = false ∧
    wSltpThrow.mainOrder = some "m1" ∧
    (placeOrderWithSLTP wSltpThrow "DOGE-USDT" "buy" 10 2 5).1 = none := by
  refine ⟨by decide, by decide, by decide, rfl, rfl⟩

/-- C2 (amended): the standard buy/sell execution path submits the
primary order with no protective order attached (`placeOrderWithSLTP` is
not invoked by `processSignal`); `placeOrderWithSLTP` itself attaches the
protective stop best-effort — when the protective request completes
(even rejected by the exchange, whose response code is not checked) the
primary order is still returned as success, but when the protective
request throws, the call returns failure despite the placed primary
order. -/
theorem c2_no_protection_on_standard_path (cfg : Config) (env : ExchangeEnv)
    (now : ℤ) (today nowIso : String) (st : SMState) (sig : Signal)
    (senv : SLTPEnv) (sym side : String) (amt sl tp : ℚ) (mo : String) (t : ℚ)
    (hmo : senv.mainOrder = some mo) (ht : senv.ticker = some t) :
    ((processSignal cfg env now today nowIso st sig).orders.any
      OrderReq.isProtective) = false ∧
    ((placeOrderWithSLTP senv sym side amt sl tp).2.any OrderReq.isProtective) = true ∧
    (senv.algoThrows = false → (placeOrderWithSLTP senv sym side amt sl tp).1 = some mo) ∧
    (senv.algoThrows = true → (placeOrderWithSLTP senv sym side amt sl tp).1 = none) := by
  refine ⟨?_, ?_, ?_, ?_⟩
  · unfold processSignal
    rcases hn : normalizeSignal sig with e | ns
    · simp
    · rcases processNorm_orders_shape cfg env now today nowIso st ns with h | ⟨q, h⟩ <;>
        simp [h, orderReqOf_not_protective]
  · cases halgo : senv.algoThrows <;>
      simp [placeOrderWithSLTP, hmo, ht, halgo, OrderReq.isProtective]
  · intro halgo
    simp [placeOrderWithSLTP, hmo, ht, halgo]
  · intro halgo
    simp [placeOrderWithSLTP, hmo, ht, halgo]

/-- Witness for the amended C2: the concrete buy run plus both SLTP
outcomes. -/
theorem c2_witness :
    wSltpOk.mainOrder = some "m1" ∧
    wSltpOk.ticker = some 100 ∧
    (((processSignal defaultConfig wEnv 0 "d" "t1" wSt0 wSigBuy).orders.any
        OrderReq.isProtective) = false ∧
     ((placeOrderWithSLTP wSltpOk "DOGE-USDT" "buy" 10 2 5).2.any
        OrderReq.isProtective) = true ∧
     (wSltpOk.algoThrows = false →
       (placeOrderWithSLTP wSltpOk "DOGE-USDT" "buy" 10 2 5).1 = some "m1") ∧
     (wSltpOk.algoThrows = true →
       (placeOrderWithSLTP wSltpOk "DOGE-USDT" "buy" 10 2 5).1 = none)) :=
  ⟨rfl, rfl,
   c2_no_protection_on_standard_path defaultConfig wEnv 0 "d" "t1" wSt0 wSigBuy
     wSltpOk "DOGE-USDT" "buy" 10 2 5 "m1" 100 rfl rfl⟩

/-- C3: a sell in amount mode writes `post-trade ticker price × sold
quantity` (the proceeds) as the strategy's trading balance — not the
original spend — and the next (non-first) buy for that key is sized by
exactly that stored balance. -/
theorem c3_amount_mode_compounds (cfg : Config) (env : ExchangeEnv) (now : ℤ)
    (today nowIso : String) (st : SMState) (sig : Signal) (ns : NormSig)
    (pos : PositionRecord) (oid : String) (p : ℚ) (sig2 : Signal) (ns2 : NormSig) (b : ℚ)
    (hnorm : normalizeSignal sig = Except.ok ns)
    (hact : ns.action = "sell")
    (hrm : ns.recurringMode = "am")
    (hv : validateSymbol env.lookup ns.symbol = true)
    (hpos : getBuyPosition st.db ns.coin (nsCat ns) (nsScat ns) = some pos)
    (hstat : pos.status = "active")
    (hq : 0 < pos.quantity)
    (hft : isFirstTrade st.db ns.coin (nsCat ns) (nsScat ns) = false)
    (hcd : isInCooldown cfg st now ns.symbol ns.action ns.subcategory = false)
    (hdl : (st.dailyTrades today).getD 0 < cfg.MAX_DAILY_TRADES)
    (hord : env.orderId = some oid)
    (htick : env.postTicker = some p)
    (hfb : st.db.failBal (balanceKey (getStrategyKey ns.coin (nsCat ns) (nsScat ns))) = false)
    (hfp : st.db.failPos (buyKey (getStrategyKey ns.coin (nsCat ns) (nsScat ns))) = false)
    (hnorm2 : normalizeSignal sig2 = Except.ok ns2)
    (hact2 : ns2.action = "buy")
    (hcoin2 : ns2.coin = ns.coin)
    (hcat2 : nsCat ns2 = nsCat ns)
    (hscat2 : nsScat ns2 = nsScat ns)
    (hb2 : p * pos.quantity ≤ b) :
    (processSignal cfg env now today nowIso st sig).result =
      ProcResult.success "sell" ns.symbol ns.coin pos.quantity ns.orderType "am" ∧
    (processSignal cfg env now today nowIso st sig).state.db.bal
      (balanceKey (getStrategyKey ns.coin (nsCat ns) (nsScat ns))) =
      some (p * pos.quantity) ∧
    getTradingBalance cfg (processSignal cfg env now today nowIso st sig).state.db
      ns.coin (nsCat ns) (nsScat ns) = p * pos.quantity ∧
    sizeOrder cfg (processSignal cfg env now today nowIso st sig).state.db (some b) ns2 =
      Except.ok (p * pos.quantity, some (p * pos.quantity)) := by
  have hcs : canSell st.db ns.coin (nsCat ns) (nsScat ns) = true := by
    simp [canSell, hpos, hstat, hq]
  have hsz : sizeOrder cfg st.db env.usdtBalance ns = Except.ok (pos.quantity, none) := by
    simp [sizeOrder, hact, hft, hpos]
  have hps : processSignal cfg env now today nowIso st sig =
      ⟨ProcResult.success ns.action ns.symbol ns.coin pos.quantity ns.orderType
         ns.recurringMode,
       ⟨fun k => if k = cooldownKey ns.symbol ns.action ns.subcategory then some now
                 else st.cooldowns k,
        fun k => if k = today then some ((st.dailyTrades today).getD 0 + 1)
                 else st.dailyTrades k,
        bookkeep env.postTicker nowIso st.db ns pos.quantity none oid⟩,
       [orderReqOf ns pos.quantity]⟩ := by
    rw [processSignal_ok cfg env now today nowIso st sig ns hnorm]
    exact processNorm_success cfg env now today nowIso st ns pos.quantity none oid
      hv (by simp [hact]) (by simp [hact, hcs]) hcd hdl hsz hord
  have hbk : bookkeep env.postTicker nowIso st.db ns pos.quantity none oid =
      (clearBuyPosition (storeTradingBalance st.db ns.coin (nsCat ns) (nsScat ns)
        (p * pos.quantity)).1 ns.coin (nsCat ns) (nsScat ns)).1 := by
    simp [bookkeep, hact, hrm, htick]
  have hbal : (bookkeep env.postTicker nowIso st.db ns pos.quantity none oid).bal
      (balanceKey (getStrategyKey ns.coin (nsCat ns) (nsScat ns))) =
      some (p * pos.quantity) := by
    rw [hbk, clearBuyPosition_bal]
    exact storeTradingBalance_bal_same st.db ns.coin (nsCat ns) (nsScat ns)
      (p * pos.quantity) hfb
  have hfB : (bookkeep env.postTicker nowIso st.db ns pos.quantity none oid).failBal
      (balanceKey (getStrategyKey ns.coin (nsCat ns) (nsScat ns))) = false := by
    rw [hbk, clearBuyPosition_failBal, storeTradingBalance_failBal]
    exact hfb
  have hfP : (bookkeep env.postTicker nowIso st.db ns pos.quantity none oid).failPos
      (buyKey (getStrategyKey ns.coin (nsCat ns) (nsScat ns))) = false := by
    rw [hbk, clearBuyPosition_failPos, storeTradingBalance_failPos]
    exact hfp
  have hgtb : getTradingBalance cfg
      (bookkeep env.postTicker nowIso st.db ns pos.quantity none oid)
      ns.coin (nsCat ns) (nsScat ns) = p * pos.quantity := by
    simp [getTradingBalance, hfB, hbal]
  have hift : isFirstTrade (bookkeep env.postTicker nowIso st.db ns pos.quantity none oid)
      ns.coin (nsCat ns) (nsScat ns) = false := by
    simp [isFirstTrade, hfB, hfP, hbal]
  refine ⟨?_, ?_, ?_, ?_⟩
  · simp [hps, hact, hrm]
  · simp only [hps]
    exact hbal
  · simp only [hps]
    exact hgtb
  · simp only [hps]
    simp [sizeOrder, hact2, hcoin2, hcat2, hscat2, hift, hgtb, balInsufficient,
      not_lt.mpr hb2]

/-- Witness for C3: selling the open 1250-DOGE position at ticker 0.085
stores `0.085 × 1250` as the next buy's size. -/
theorem c3_witness :
    normalizeSignal wSigSellAm = Except.ok wNsSellAm ∧
    wNsSellAm.action = "sell" ∧
    wNsSellAm.recurringMode = "am" ∧
    getBuyPosition wStPos.db wNsSellAm.coin (nsCat wNsSellAm) (nsScat wNsSellAm) =
      some wPos ∧
    (0:ℚ) < wPos.quantity ∧
    isFirstTrade wStPos.db wNsSellAm.coin (nsCat wNsSellAm) (nsScat wNsSellAm) = false ∧
    wEnv.postTicker = some (mkRat 17 200) ∧
    mkRat 17 200 * wPos.quantity ≤ 5000 ∧
    normalizeSignal wSigBuyDefault = Except.ok wNsBuyDefault ∧
    ((processSignal defaultConfig wEnv 7 "d" "t1" wStPos wSigSellAm).result =
       ProcResult.success "sell" wNsSellAm.symbol wNsSellAm.coin wPos.quantity
         wNsSellAm.orderType "am" ∧
     (processSignal defaultConfig wEnv 7 "d" "t1" wStPos wSigSellAm).state.db.bal
       (balanceKey (getStrategyKey wNsSellAm.coin (nsCat wNsSellAm) (nsScat wNsSellAm))) =
       some (mkRat 17 200 * wPos.quantity) ∧
     getTradingBalance defaultConfig
       (processSignal defaultConfig wEnv 7 "d" "t1" wStPos wSigSellAm).state.db
       wNsSellAm.coin (nsCat wNsSellAm) (nsScat wNsSellAm) =
       mkRat 17 200 * wPos.quantity ∧
     sizeOrder defaultConfig
       (processSignal defaultConfig wEnv 7 "d" "t1" wStPos wSigSellAm).state.db
       (some 5000) wNsBuyDefault =
       Except.ok (mkRat 17 200 * wPos.quantity, some (mkRat 17 200 * wPos.quantity))) :=
  ⟨rfl, rfl, rfl, rfl, by decide, rfl, rfl,
   by norm_num [Rat.mkRat_eq_divInt, wPos], rfl,
   c3_amount_mode_compounds defaultConfig wEnv 7 "d" "t1" wStPos wSigSellAm wNsSellAm
     wPos "oid2" (mkRat 17 200) wSigBuyDefault wNsBuyDefault 5000
     rfl rfl rfl rfl rfl rfl (by decide) rfl rfl (by decide) rfl rfl rfl rfl
     rfl rfl rfl rfl rfl (by norm_num [Rat.mkRat_eq_divInt, wPos])⟩

/-- C4: a sell in quantity mode writes the `usdtSpent` recorded in the
position being closed as the strategy's trading balance — independent of
the sell's proceeds (no assumption on the post-trade ticker) — and the
position record is cleared afterwards. -/
theorem c4_quantity_mode_recycles (cfg : Config) (env : ExchangeEnv) (now : ℤ)
    (today nowIso : String) (st : SMState) (sig : Signal) (ns : NormSig)
    (pos : PositionRecord) (oid : String)
    (hnorm : normalizeSignal sig = Except.ok ns)
    (hact : ns.action = "sell")
    (hrm : ns.recurringMode = "qu")
    (hv : validateSymbol env.lookup ns.symbol = true)
    (hpos : getBuyPosition st.db ns.coin (nsCat ns) (nsScat ns) = some pos)
    (hstat : pos.status = "active")
    (hq : 0 < pos.quantity)
    (hft : isFirstTrade st.db ns.coin (nsCat ns) (nsScat ns) = false)
    (hcd : isInCooldown cfg st now ns.symbol ns.action ns.subcategory = false)
    (hdl : (st.dailyTrades today).getD 0 < cfg.MAX_DAILY_TRADES)
    (hord : env.orderId = some oid)
    (hfb : st.db.failBal (balanceKey (getStrategyKey ns.coin (nsCat ns) (nsScat ns))) = false)
    (hfp : st.db.failPos (buyKey (getStrategyKey ns.coin (nsCat ns) (nsScat ns))) = false) :
    (processSignal cfg env now today nowIso st sig).result =
      ProcResult.success "sell" ns.symbol ns.coin pos.quantity ns.orderType "qu" ∧
    (processSignal cfg env now today nowIso st sig).state.db.bal
      (balanceKey (getStrategyKey ns.coin (nsCat ns) (nsScat ns))) =
      some pos.usdtSpent ∧
    getTradingBalance cfg (processSignal cfg env now today nowIso st sig).state.db
      ns.coin (nsCat ns) (nsScat ns) = pos.usdtSpent ∧
    (processSignal cfg env now today nowIso st sig).state.db.pos
      (buyKey (getStrategyKey ns.coin (nsCat ns) (nsScat ns))) = none := by
  have hcs : canSell st.db ns.coin (nsCat ns) (nsScat ns) = true := by
    simp [canSell, hpos, hstat, hq]
  have hsz : sizeOrder cfg st.db env.usdtBalance ns = Except.ok (pos.quantity, none) := by
    simp [sizeOrder, hact, hft, hpos]
  have hps : processSignal cfg env now today nowIso st sig =
      ⟨ProcResult.success ns.action ns.symbol ns.coin pos.quantity ns.orderType
         ns.recurringMode,
       ⟨fun k => if k = cooldownKey ns.symbol ns.action ns.subcategory then some now
                 else st.cooldowns k,
        fun k => if k = today then some ((st.dailyTrades today).getD 0 + 1)
                 else st.dailyTrades k,
        bookkeep env.postTicker nowIso st.db ns pos.quantity none oid⟩,
       [orderReqOf ns pos.quantity]⟩ := by
    rw [processSignal_ok cfg env now today nowIso st sig ns hnorm]
    exact processNorm_success cfg env now today nowIso st ns pos.quantity none oid
      hv (by simp [hact]) (by simp [hact, hcs]) hcd hdl hsz hord
  have hbk : bookkeep env.postTicker nowIso st.db ns pos.quantity none oid =
      (clearBuyPosition (storeTradingBalance st.db ns.coin (nsCat ns) (nsScat ns)
        pos.usdtSpent).1 ns.coin (nsCat ns) (nsScat ns)).1 := by
    simp [bookkeep, hact, hrm, hpos]
  have hbal : (bookkeep env.postTicker nowIso st.db ns pos.quantity none oid).bal
      (balanceKey (getStrategyKey ns.coin (nsCat ns) (nsScat ns))) =
      some pos.usdtSpent := by
    rw [hbk, clearBuyPosition_bal]
    exact storeTradingBalance_bal_same st.db ns.coin (nsCat ns) (nsScat ns)
      pos.usdtSpent hfb
  have hfB : (bookkeep env.postTicker nowIso st.db ns pos.quantity none oid).failBal
      (balanceKey (getStrategyKey ns.coin (nsCat ns) (nsScat ns))) = false := by
    rw [hbk, clearBuyPosition_failBal, storeTradingBalance_failBal]
    exact hfb
  refine ⟨?_, ?_, ?_, ?_⟩
  · simp [hps, hact, hrm]
  · simp only [hps]
    exact hbal
  · simp only [hps]
    simp [getTradingBalance, hfB, hbal]
  · simp only [hps]
    rw [hbk]
    apply clearBuyPosition_pos_same
    rw [storeTradingBalance_failPos]
    exact hfp

/-- Witness for C4: selling the open 1250-DOGE position in quantity mode
stores the original 100 USDT spend and clears the record. -/
theorem c4_witness :
    normalizeSignal wSigSellQu = Except.ok wNsSellQu ∧
    wNsSellQu.action = "sell" ∧
    wNsSellQu.recurringMode = "qu" ∧
    getBuyPosition wStPos.db wNsSellQu.coin (nsCat wNsSellQu) (nsScat wNsSellQu) =
      some wPos ∧
    wPos.usdtSpent = 100 ∧
    ((processSignal defaultConfig wEnv 7 "d" "t1" wStPos wSigSellQu).result =
       ProcResult.success "sell" wNsSellQu.symbol wNsSellQu.coin wPos.quantity
         wNsSellQu.orderType "qu" ∧
     (processSignal defaultConfig wEnv 7 "d" "t1" wStPos wSigSellQu).state.db.bal
       (balanceKey (getStrategyKey wNsSellQu.coin (nsCat wNsSellQu) (nsScat wNsSellQu))) =
       some wPos.usdtSpent ∧
     getTradingBalance defaultConfig
       (processSignal defaultConfig wEnv 7 "d" "t1" wStPos wSigSellQu).state.db
       wNsSellQu.coin (nsCat wNsSellQu) (nsScat wNsSellQu) = wPos.usdtSpent ∧
     (processSignal defaultConfig wEnv 7 "d" "t1" wStPos wSigSellQu).state.db.pos
       (buyKey (getStrategyKey wNsSellQu.coin (nsCat wNsSellQu) (nsScat wNsSellQu))) =
       none) :=
  ⟨rfl, rfl, rfl, rfl, rfl,
   c4_quantity_mode_recycles defaultConfig wEnv 7 "d" "t1" wStPos wSigSellQu wNsSellQu
     wPos "oid2" rfl rfl rfl rfl rfl rfl (by decide) rfl rfl (by decide) rfl rfl rfl⟩

/-- C9: when a buy order fills but the post-trade ticker returns no price
and the signal carried no limit price, the stored position record has
price 0, quantity 0 and status `active`; such a record makes both
`canBuy` and `canSell` false, so every subsequent buy and sell signal
for that key is rejected with no order submitted. -/
theorem c9_zero_position_poisons_key (cfg : Config) (env : ExchangeEnv) (now : ℤ)
    (today nowIso : String) (st : SMState) (sig : Signal) (ns : NormSig)
    (q0 : ℚ) (ta : Option ℚ) (oid : String)
    (cfg2 : Config) (env2 : ExchangeEnv) (now2 : ℤ) (today2 nowIso2 : String)
    (sig2 : Signal) (ns2 : NormSig)
    (cfg3 : Config) (env3 : ExchangeEnv) (now3 : ℤ) (today3 nowIso3 : String)
    (sig3 : Signal) (ns3 : NormSig)
    (hnorm : normalizeSignal sig = Except.ok ns)
    (hact : ns.action = "buy")
    (hprice : ns.price = none)
    (hiq : ns.initialQuantity = none)
    (htick : env.postTicker = none)
    (hv : validateSymbol env.lookup ns.symbol = true)
    (hcb : canBuy st.db ns.coin (nsCat ns) (nsScat ns) = true)
    (hcd : isInCooldown cfg st now ns.symbol ns.action ns.subcategory = false)
    (hdl : (st.dailyTrades today).getD 0 < cfg.MAX_DAILY_TRADES)
    (hsz : sizeOrder cfg st.db env.usdtBalance ns = Except.ok (q0, ta))
    (hord : env.orderId = some oid)
    (hfp : st.db.failPos (buyKey (getStrategyKey ns.coin (nsCat ns) (nsScat ns))) = false)
    (hnorm2 : normalizeSignal sig2 = Except.ok ns2)
    (hact2 : ns2.action = "buy")
    (hcoin2 : ns2.coin = ns.coin)
    (hcat2 : nsCat ns2 = nsCat ns)
    (hscat2 : nsScat ns2 = nsScat ns)
    (hnorm3 : normalizeSignal sig3 = Except.ok ns3)
    (hact3 : ns3.action = "sell")
    (hcoin3 : ns3.coin = ns.coin)
    (hcat3 : nsCat ns3 = nsCat ns)
    (hscat3 : nsScat ns3 = nsScat ns) :
    getBuyPosition (processSignal cfg env now today nowIso st sig).state.db
      ns.coin (nsCat ns) (nsScat ns) =
      some ⟨0, 0, ta.getD 0, oid, nowIso, "active", ns.coin, nsCat ns, nsScat ns⟩ ∧
    canBuy (processSignal cfg env now today nowIso st sig).state.db
      ns.coin (nsCat ns) (nsScat ns) = false ∧
    canSell (processSignal cfg env now today nowIso st sig).state.db
      ns.coin (nsCat ns) (nsScat ns) = false ∧
    (processSignal cfg2 env2 now2 today2 nowIso2
      (processSignal cfg env now today nowIso st sig).state sig2).result.isFailure = true ∧
    (processSignal cfg2 env2 now2 today2 nowIso2
      (processSignal cfg env now today nowIso st sig).state sig2).orders = [] ∧
    (processSignal cfg3 env3 now3 today3 nowIso3
      (processSignal cfg env now today nowIso st sig).state sig3).result.isFailure = true ∧
    (processSignal cfg3 env3 now3 today3 nowIso3
      (processSignal cfg env now today nowIso st sig).state sig3).orders = [] := by
  have hps : processSignal cfg env now today nowIso st sig =
      ⟨ProcResult.success ns.action ns.symbol ns.coin q0 ns.orderType ns.recurringMode,
       ⟨fun k => if k = cooldownKey ns.symbol ns.action ns.subcategory then some now
                 else st.cooldowns k,
        fun k => if k = today then some ((st.dailyTrades today).getD 0 + 1)
                 else st.dailyTrades k,
        bookkeep env.postTicker nowIso st.db ns q0 ta oid⟩,
       [orderReqOf ns q0]⟩ := by
    rw [processSignal_ok cfg env now today nowIso st sig ns hnorm]
    exact processNorm_success cfg env now today nowIso st ns q0 ta oid
      hv (by simp [hact, hcb]) (by simp [hact]) hcd hdl hsz hord
  have hbk : bookkeep env.postTicker nowIso st.db ns q0 ta oid =
      (storeBuyOrder st.db ns.coin (nsCat ns) (nsScat ns) 0 0 (ta.getD 0)
        oid nowIso).1 := by
    simp [bookkeep, hact, hiq, htick, hprice]
  have hget : getBuyPosition (bookkeep env.postTicker nowIso st.db ns q0 ta oid)
      ns.coin (nsCat ns) (nsScat ns) =
      some ⟨0, 0, ta.getD 0, oid, nowIso, "active", ns.coin, nsCat ns, nsScat ns⟩ := by
    rw [hbk]
    simp only [getBuyPosition, storeBuyOrder_failPos, hfp, Bool.false_eq_true, if_false]
    exact storeBuyOrder_pos_same st.db ns.coin (nsCat ns) (nsScat ns) 0 0 (ta.getD 0)
      oid nowIso hfp
  have hcanB : canBuy (bookkeep env.postTicker nowIso st.db ns q0 ta oid)
      ns.coin (nsCat ns) (nsScat ns) = false := by
    simp [canBuy, hget]
  have hcanS : canSell (bookkeep env.postTicker nowIso st.db ns q0 ta oid)
      ns.coin (nsCat ns) (nsScat ns) = false := by
    simp [canSell, hget]
  have hcanB2 : canBuy (bookkeep env.postTicker nowIso st.db ns q0 ta oid)
      ns2.coin (nsCat ns2) (nsScat ns2) = false := by
    rw [hcoin2, hcat2, hscat2]
    exact hcanB
  have hcanS3 : canSell (bookkeep env.postTicker nowIso st.db ns q0 ta oid)
      ns3.coin (nsCat ns3) (nsScat ns3) = false := by
    rw [hcoin3, hcat3, hscat3]
    exact hcanS
  refine ⟨?_, ?_, ?_, ?_, ?_, ?_, ?_⟩
  · simp only [hps]
    exact hget
  · simp only [hps]
    exact hcanB
  · simp only [hps]
    exact hcanS
  · simp only [hps]
    rw [processSignal_ok cfg2 env2 now2 today2 nowIso2 _ sig2 ns2 hnorm2]
    exact (processNorm_reject_buy cfg2 env2 now2 today2 nowIso2 _ ns2 hact2 hcanB2).1
  · simp only [hps]
    rw [processSignal_ok cfg2 env2 now2 today2 nowIso2 _ sig2 ns2 hnorm2]
    exact (processNorm_reject_buy cfg2 env2 now2 today2 nowIso2 _ ns2 hact2 hcanB2).2
  · simp only [hps]
    rw [processSignal_ok cfg3 env3 now3 today3 nowIso3 _ sig3 ns3 hnorm3]
    exact (processNorm_reject_sell cfg3 env3 now3 today3 nowIso3 _ ns3 hact3 hcanS3).1
  · simp only [hps]
    rw [processSignal_ok cfg3 env3 now3 today3 nowIso3 _ sig3 ns3 hnorm3]
    exact (processNorm_reject_sell cfg3 env3 now3 today3 nowIso3 _ ns3 hact3 hcanS3).2

/-- Witness for C9: a filled buy with no ticker and no price leaves a
`quantity 0 / price 0 / active` record that rejects both follow-up
signals. -/
theorem c9_witness :
    normalizeSignal wSigBuyDefault = Except.ok wNsBuyDefault ∧
    wNsBuyDefault.price = none ∧
    wNsBuyDefault.initialQuantity = none ∧
    wEnvNoTicker.postTicker = none ∧
    sizeOrder defaultConfig wSt0.db wEnvNoTicker.usdtBalance wNsBuyDefault =
      Except.ok (1000, some 1000) ∧
    (getBuyPosition (processSignal defaultConfig wEnvNoTicker 0 "d" "t1" wSt0
        wSigBuyDefault).state.db
        wNsBuyDefault.coin (nsCat wNsBuyDefault) (nsScat wNsBuyDefault) =
       some ⟨0, 0, (some (1000:ℚ)).getD 0, "oid3", "t1", "active",
         wNsBuyDefault.coin, nsCat wNsBuyDefault, nsScat wNsBuyDefault⟩ ∧
     canBuy (processSignal defaultConfig wEnvNoTicker 0 "d" "t1" wSt0
        wSigBuyDefault).state.db
        wNsBuyDefault.coin (nsCat wNsBuyDefault) (nsScat wNsBuyDefault) = false ∧
     canSell (processSignal defaultConfig wEnvNoTicker 0 "d" "t1" wSt0
        wSigBuyDefault).state.db
        wNsBuyDefault.coin (nsCat wNsBuyDefault) (nsScat wNsBuyDefault) = false ∧
     (processSignal defaultConfig wEnv 99 "d" "t2"
        (processSignal defaultConfig wEnvNoTicker 0 "d" "t1" wSt0 wSigBuyDefault).state
        wSigBuyDefault).result.isFailure = true ∧
     (processSignal defaultConfig wEnv 99 "d" "t2"
        (processSignal defaultConfig wEnvNoTicker 0 "d" "t1" wSt0 wSigBuyDefault).state
        wSigBuyDefault).orders = [] ∧
     (processSignal defaultConfig wEnv 99 "d" "t2"
        (processSignal defaultConfig wEnvNoTicker 0 "d" "t1" wSt0 wSigBuyDefault).state
        wSigSellAm).result.isFailure = true ∧
     (processSignal defaultConfig wEnv 99 "d" "t2"
        (processSignal defaultConfig wEnvNoTicker 0 "d" "t1" wSt0 wSigBuyDefault).state
        wSigSellAm).orders = []) :=
  ⟨rfl, rfl, rfl, rfl, rfl,
   c9_zero_position_poisons_key defaultConfig wEnvNoTicker 0 "d" "t1" wSt0
     wSigBuyDefault wNsBuyDefault 1000 (some 1000) "oid3"
     defaultConfig wEnv 99 "d" "t2" wSigBuyDefault wNsBuyDefault
     defaultConfig wEnv 99 "d" "t2" wSigSellAm wNsSellAm
     rfl rfl rfl rfl rfl rfl rfl rfl (by decide) rfl rfl rfl
     rfl rfl rfl rfl rfl rfl rfl rfl rfl rfl⟩

end OKX
